import Mathlib

/-!
Verification of the Immo-Invest-Tool calculation engine.

The Python modules `src/finance_engine.py` and `src/tax_calculator.py` are
shallowly embedded here.  Python `float` arithmetic is modelled by exact
rational arithmetic over `ℚ`; all formulas, guards and loop structure are
translated one-to-one from the source.  The yearly loop of
`berechne_tilgungsplan` (a `for` over `range(1, laufzeit_jahre + 1)` with an
early `break` once the balance is non-positive) becomes structural recursion
on the number of remaining years.  The pandas `DataFrame` results become
lists of row records.
-/

namespace ImmoInvest

/-- Row of the amortization schedule (one row of the `DataFrame` built by
`berechne_tilgungsplan`: columns Jahr, Zinsanteil, Tilgungsanteil,
Restschuld, Zinsen kumuliert, Tilgung kumuliert). -/
structure TilgungsRow where
  jahr : ℕ
  zinsanteil : ℚ
  tilgungsanteil : ℚ
  restschuld : ℚ
  zinsen_kumuliert : ℚ
  tilgung_kumuliert : ℚ
  deriving DecidableEq, Repr

/-- Result record of `berechne_annuitaet` (`FinanzierungErgebnis`). -/
structure FinanzierungErgebnis where
  darlehensbetrag : ℚ
  monatliche_rate : ℚ
  jaehrliche_rate : ℚ
  gesamtkosten : ℚ
  zinsen_gesamt : ℚ
  deriving DecidableEq, Repr

/-- Result record of `berechne_cashflow` (`CashflowErgebnis`). -/
structure CashflowErgebnis where
  brutto_mieteinnahmen : ℚ
  netto_mieteinnahmen : ℚ
  cashflow_vor_steuern : ℚ
  cashflow_nach_steuern : ℚ
  deriving DecidableEq, Repr

/-- Result record of `berechne_renditen` (`RenditeErgebnis`). -/
structure RenditeErgebnis where
  brutto_mietrendite : ℚ
  netto_mietrendite : ℚ
  eigenkapitalrendite : ℚ
  objektrendite : ℚ
  cashflow_rendite : ℚ
  deriving DecidableEq, Repr

/-- Row of the wealth projection built by `berechne_vermoegensaufbau`
(columns Jahr, Immobilienwert, Restschuld, Nettovermögen,
Cashflow kumuliert, Gesamtvermögen). -/
structure VermoegensRow where
  jahr : ℕ
  immobilienwert : ℚ
  restschuld : ℚ
  nettovermoegen : ℚ
  cashflow_kumuliert : ℚ
  gesamt_vermoegen : ℚ
  deriving DecidableEq, Repr

/-- The dictionary returned by `berechne_nebenkosten` in
`finance_engine.py`. -/
structure Nebenkosten where
  grunderwerbsteuer : ℚ
  notar_und_grundbuch : ℚ
  makler : ℚ
  gesamt : ℚ
  deriving DecidableEq, Repr

/-- `berechne_nebenkosten(kaufpreis, grunderwerbsteuer, notar_und_grundbuch,
makler)` from `finance_engine.py` (defaults 6.0, 2.0, 3.57 are passed
explicitly here). -/
def berechne_nebenkosten (kaufpreis grunderwerbsteuer notar_und_grundbuch
    makler : ℚ) : Nebenkosten :=
  { grunderwerbsteuer := kaufpreis * grunderwerbsteuer / 100
    notar_und_grundbuch := kaufpreis * notar_und_grundbuch / 100
    makler := kaufpreis * makler / 100
    gesamt := kaufpreis * (grunderwerbsteuer + notar_und_grundbuch + makler) / 100 }

/-- `berechne_annuitaet(darlehensbetrag, zinssatz_prozent, tilgung_prozent,
laufzeit_jahre)` from `finance_engine.py`. -/
def berechne_annuitaet (darlehensbetrag zinssatz_prozent tilgung_prozent : ℚ)
    (laufzeit_jahre : ℕ) : FinanzierungErgebnis :=
  let annuitaet_prozent := zinssatz_prozent + tilgung_prozent
  let jaehrliche_rate := darlehensbetrag * annuitaet_prozent / 100
  let monatliche_rate := jaehrliche_rate / 12
  let gesamtkosten := jaehrliche_rate * (laufzeit_jahre : ℚ)
  let zinsen_gesamt := gesamtkosten - darlehensbetrag
  { darlehensbetrag := darlehensbetrag
    monatliche_rate := monatliche_rate
    jaehrliche_rate := jaehrliche_rate
    gesamtkosten := max gesamtkosten darlehensbetrag
    zinsen_gesamt := max zinsen_gesamt 0 }

/-- The yearly loop of `berechne_tilgungsplan`: `fuel` is the number of loop
iterations still allowed (`laufzeit_jahre` at the top-level call), `jahr` the
current year label, `restschuld` the running balance and
`zinsen_kumuliert` / `tilgung_kumuliert` the running sums.  The loop body
breaks first when the balance is non-positive (`if restschuld <= 0: break`),
otherwise computes the interest and principal split and appends a row. -/
def tilgungsplanAux (zinssatz annuitaet : ℚ) :
    ℕ → ℕ → ℚ → ℚ → ℚ → List TilgungsRow
  | 0, _, _, _, _ => []
  | fuel + 1, jahr, restschuld, zinsen_kumuliert, tilgung_kumuliert =>
    if restschuld ≤ 0 then []
    else
      let zinsanteil := restschuld * zinssatz
      let tilgungsanteil := min (annuitaet - zinsanteil) restschuld
      let restschuld2 := max 0 (restschuld - tilgungsanteil)
      let zk2 := zinsen_kumuliert + zinsanteil
      let tk2 := tilgung_kumuliert + tilgungsanteil
      { jahr := jahr
        zinsanteil := zinsanteil
        tilgungsanteil := tilgungsanteil
        restschuld := restschuld2
        zinsen_kumuliert := zk2
        tilgung_kumuliert := tk2 } ::
        tilgungsplanAux zinssatz annuitaet fuel (jahr + 1) restschuld2 zk2 tk2

/-- `berechne_tilgungsplan(darlehensbetrag, zinssatz_prozent,
tilgung_prozent, laufzeit_jahre)` from `finance_engine.py`. -/
def berechne_tilgungsplan (darlehensbetrag zinssatz_prozent tilgung_prozent : ℚ)
    (laufzeit_jahre : ℕ) : List TilgungsRow :=
  tilgungsplanAux (zinssatz_prozent / 100)
    (darlehensbetrag * (zinssatz_prozent + tilgung_prozent) / 100)
    laufzeit_jahre 1 darlehensbetrag 0 0

/-- `berechne_cashflow(kaltmiete_monatlich, nicht_umlegbare_kosten_monatlich,
mietausfallwagnis_prozent, monatliche_rate, steuervorteil_monatlich)` from
`finance_engine.py`. -/
def berechne_cashflow (kaltmiete_monatlich nicht_umlegbare_kosten_monatlich
    mietausfallwagnis_prozent monatliche_rate steuervorteil_monatlich : ℚ) :
    CashflowErgebnis :=
  let brutto_mieteinnahmen := kaltmiete_monatlich * 12
  let mietausfall := brutto_mieteinnahmen * mietausfallwagnis_prozent / 100
  let netto_mieteinnahmen := brutto_mieteinnahmen - mietausfall -
    nicht_umlegbare_kosten_monatlich * 12
  let jaehrliche_rate := monatliche_rate * 12
  let cashflow_vor_steuern := netto_mieteinnahmen - jaehrliche_rate
  { brutto_mieteinnahmen := brutto_mieteinnahmen
    netto_mieteinnahmen := netto_mieteinnahmen
    cashflow_vor_steuern := cashflow_vor_steuern
    cashflow_nach_steuern := cashflow_vor_steuern + steuervorteil_monatlich * 12 }

/-- `berechne_renditen(kaufpreis, nebenkosten, eigenkapital,
brutto_mieteinnahmen, netto_mieteinnahmen, cashflow_nach_steuern)` from
`finance_engine.py`.  Each ratio is guarded by an `if denominator > 0`
test and falls back to `0` otherwise; the Python function can therefore
never raise a division error, which the embedding reflects by being a
total function. -/
def berechne_renditen (kaufpreis nebenkosten eigenkapital
    brutto_mieteinnahmen netto_mieteinnahmen cashflow_nach_steuern : ℚ) :
    RenditeErgebnis :=
  let gesamtinvestition := kaufpreis + nebenkosten
  let brutto_mietrendite :=
    if kaufpreis > 0 then brutto_mieteinnahmen / kaufpreis * 100 else 0
  let netto_mietrendite :=
    if gesamtinvestition > 0 then netto_mieteinnahmen / gesamtinvestition * 100
    else 0
  let eigenkapitalrendite :=
    if eigenkapital > 0 then cashflow_nach_steuern / eigenkapital * 100 else 0
  let cashflow_rendite :=
    if gesamtinvestition > 0 then cashflow_nach_steuern / gesamtinvestition * 100
    else 0
  { brutto_mietrendite := brutto_mietrendite
    netto_mietrendite := netto_mietrendite
    eigenkapitalrendite := eigenkapitalrendite
    objektrendite := netto_mietrendite
    cashflow_rendite := cashflow_rendite }

/-- The yearly loop of `berechne_vermoegensaufbau`: walks down the
amortization rows carrying the running property value and cumulative cash
flow; the appreciation factor is applied at the top of each iteration,
before the row is emitted. -/
def vermoegensAux (cashflow_jaehrlich faktor : ℚ) :
    List TilgungsRow → ℚ → ℚ → List VermoegensRow
  | [], _, _ => []
  | row :: rest, immobilienwert, cf_kumuliert =>
    let wert2 := immobilienwert * faktor
    let cf2 := cf_kumuliert + cashflow_jaehrlich
    let netto := wert2 - row.restschuld
    { jahr := row.jahr
      immobilienwert := wert2
      restschuld := row.restschuld
      nettovermoegen := netto
      cashflow_kumuliert := cf2
      gesamt_vermoegen := netto + cf2 } ::
      vermoegensAux cashflow_jaehrlich faktor rest wert2 cf2

/-- `berechne_vermoegensaufbau(eigenkapital, tilgungsplan,
cashflow_jaehrlich, wertsteigerung_prozent, kaufpreis)` from
`finance_engine.py`.  An empty schedule returns an empty frame; otherwise
the source reconstructs `darlehensbetrag` from the first schedule row as
`Restschuld[0] + Tilgung_kumuliert[0] - Tilgungsanteil[0]` and starts the
property value at `kaufpreis` when positive, else at
`darlehensbetrag + eigenkapital`. -/
def berechne_vermoegensaufbau (eigenkapital : ℚ)
    (tilgungsplan : List TilgungsRow)
    (cashflow_jaehrlich wertsteigerung_prozent kaufpreis : ℚ) :
    List VermoegensRow :=
  match tilgungsplan with
  | [] => []
  | first :: rest =>
    let darlehensbetrag :=
      first.restschuld + first.tilgung_kumuliert - first.tilgungsanteil
    let wert0 :=
      if kaufpreis > 0 then kaufpreis else darlehensbetrag + eigenkapital
    vermoegensAux cashflow_jaehrlich (1 + wertsteigerung_prozent / 100)
      (first :: rest) wert0 0

/-- The four depreciation classes of `tax_calculator.py` (`AfATyp`), each
carrying a fixed annual rate. -/
inductive AfATyp where
  | ALTBAU_VOR_1925
  | ALTBAU_AB_1925
  | NEUBAU_AB_2023
  | DENKMALSCHUTZ
  deriving DecidableEq, Repr

/-- The rate attached to each `AfATyp` member (2.5, 2.0, 3.0, 9.0). -/
def AfATyp.value : AfATyp → ℚ
  | .ALTBAU_VOR_1925 => 5 / 2
  | .ALTBAU_AB_1925 => 2
  | .NEUBAU_AB_2023 => 3
  | .DENKMALSCHUTZ => 9

/-- The sixteen regions of `tax_calculator.py` (`Bundesland`), each carrying
a display name and a transfer-tax rate. -/
inductive Bundesland where
  | BADEN_WUERTTEMBERG
  | BAYERN
  | BERLIN
  | BRANDENBURG
  | BREMEN
  | HAMBURG
  | HESSEN
  | MECKLENBURG_VORPOMMERN
  | NIEDERSACHSEN
  | NORDRHEIN_WESTFALEN
  | RHEINLAND_PFALZ
  | SAARLAND
  | SACHSEN
  | SACHSEN_ANHALT
  | SCHLESWIG_HOLSTEIN
  | THUERINGEN
  deriving DecidableEq, Repr

/-- The transfer-tax rate attached to each `Bundesland` member. -/
def Bundesland.steuersatz : Bundesland → ℚ
  | .BADEN_WUERTTEMBERG => 5
  | .BAYERN => 7 / 2
  | .BERLIN => 6
  | .BRANDENBURG => 13 / 2
  | .BREMEN => 5
  | .HAMBURG => 11 / 2
  | .HESSEN => 6
  | .MECKLENBURG_VORPOMMERN => 6
  | .NIEDERSACHSEN => 5
  | .NORDRHEIN_WESTFALEN => 13 / 2
  | .RHEINLAND_PFALZ => 5
  | .SAARLAND => 13 / 2
  | .SACHSEN => 11 / 2
  | .SACHSEN_ANHALT => 5
  | .SCHLESWIG_HOLSTEIN => 13 / 2
  | .THUERINGEN => 5

/-- The display name attached to each `Bundesland` member. -/
def Bundesland.display_name : Bundesland → String
  | .BADEN_WUERTTEMBERG => "Baden-Württemberg"
  | .BAYERN => "Bayern"
  | .BERLIN => "Berlin"
  | .BRANDENBURG => "Brandenburg"
  | .BREMEN => "Bremen"
  | .HAMBURG => "Hamburg"
  | .HESSEN => "Hessen"
  | .MECKLENBURG_VORPOMMERN => "Mecklenburg-Vorpommern"
  | .NIEDERSACHSEN => "Niedersachsen"
  | .NORDRHEIN_WESTFALEN => "Nordrhein-Westfalen"
  | .RHEINLAND_PFALZ => "Rheinland-Pfalz"
  | .SAARLAND => "Saarland"
  | .SACHSEN => "Sachsen"
  | .SACHSEN_ANHALT => "Sachsen-Anhalt"
  | .SCHLESWIG_HOLSTEIN => "Schleswig-Holstein"
  | .THUERINGEN => "Thüringen"

/-- `get_grunderwerbsteuer_satz(bundesland)` from `tax_calculator.py`. -/
def get_grunderwerbsteuer_satz (bundesland : Bundesland) : ℚ :=
  bundesland.steuersatz

/-- Input record of the tax computation (`Steuerdaten`). -/
structure Steuerdaten where
  kaufpreis : ℚ
  gebaeude_anteil_prozent : ℚ
  afa_typ : AfATyp
  zinsen_jaehrlich : ℚ
  mieteinnahmen_jaehrlich : ℚ
  nicht_umlegbare_kosten_jaehrlich : ℚ
  grenzsteuersatz_prozent : ℚ
  sonstige_werbungskosten : ℚ
  deriving DecidableEq, Repr

/-- Result record of the tax computation (`SteuerlicheAbsetzbarkeit`). -/
structure SteuerlicheAbsetzbarkeit where
  afa_betrag : ℚ
  absetzbare_zinsen : ℚ
  werbungskosten : ℚ
  einkuenfte_aus_vv : ℚ
  steuervorteil : ℚ
  steuervorteil_monatlich : ℚ
  deriving DecidableEq, Repr

/-- `berechne_afa(kaufpreis, gebaeude_anteil_prozent, afa_typ)` from
`tax_calculator.py`. -/
def berechne_afa (kaufpreis gebaeude_anteil_prozent : ℚ) (afa_typ : AfATyp) :
    ℚ :=
  let gebaeudewert := kaufpreis * gebaeude_anteil_prozent / 100
  gebaeudewert * afa_typ.value / 100

/-- `berechne_steuerliche_absetzbarkeit(daten)` from `tax_calculator.py`. -/
def berechne_steuerliche_absetzbarkeit (daten : Steuerdaten) :
    SteuerlicheAbsetzbarkeit :=
  let afa_betrag :=
    berechne_afa daten.kaufpreis daten.gebaeude_anteil_prozent daten.afa_typ
  let absetzbare_zinsen := daten.zinsen_jaehrlich
  let werbungskosten := afa_betrag + absetzbare_zinsen +
    daten.nicht_umlegbare_kosten_jaehrlich + daten.sonstige_werbungskosten
  let einkuenfte_aus_vv := daten.mieteinnahmen_jaehrlich - werbungskosten
  let steuerliche_auswirkung :=
    einkuenfte_aus_vv * daten.grenzsteuersatz_prozent / 100
  let steuervorteil := -steuerliche_auswirkung
  { afa_betrag := afa_betrag
    absetzbare_zinsen := absetzbare_zinsen
    werbungskosten := werbungskosten
    einkuenfte_aus_vv := einkuenfte_aus_vv
    steuervorteil := steuervorteil
    steuervorteil_monatlich := steuervorteil / 12 }

/-- The dictionary returned by `berechne_nebenkosten_nach_bundesland` in
`tax_calculator.py`. -/
structure NebenkostenBundesland where
  grunderwerbsteuer : ℚ
  grunderwerbsteuer_satz : ℚ
  notar_und_grundbuch : ℚ
  makler : ℚ
  gesamt : ℚ
  gesamt_prozent : ℚ
  deriving DecidableEq, Repr

/-- `berechne_nebenkosten_nach_bundesland(kaufpreis, bundesland, mit_makler,
makler_prozent, notar_und_grundbuch_prozent)` from `tax_calculator.py`
(defaults True, 3.57, 2.0 are passed explicitly here).  The source performs
no input validation: the body is straight-line arithmetic on `kaufpreis`. -/
def berechne_nebenkosten_nach_bundesland (kaufpreis : ℚ)
    (bundesland : Bundesland) (mit_makler : Bool)
    (makler_prozent notar_und_grundbuch_prozent : ℚ) :
    NebenkostenBundesland :=
  let grunderwerbsteuer_satz := bundesland.steuersatz
  let makler := if mit_makler then makler_prozent else 0
  let grunderwerbsteuer := kaufpreis * grunderwerbsteuer_satz / 100
  let notar_und_grundbuch := kaufpreis * notar_und_grundbuch_prozent / 100
  let maklerkosten := kaufpreis * makler / 100
  { grunderwerbsteuer := grunderwerbsteuer
    grunderwerbsteuer_satz := grunderwerbsteuer_satz
    notar_und_grundbuch := notar_und_grundbuch
    makler := maklerkosten
    gesamt := grunderwerbsteuer + notar_und_grundbuch + maklerkosten
    gesamt_prozent :=
      grunderwerbsteuer_satz + notar_und_grundbuch_prozent + makler }

/-- `berechne_effektive_rendite_nach_steuern(brutto_rendite_prozent,
grenzsteuersatz_prozent)` from `tax_calculator.py`. -/
def berechne_effektive_rendite_nach_steuern
    (brutto_rendite_prozent grenzsteuersatz_prozent : ℚ) : ℚ :=
  brutto_rendite_prozent * (1 - grenzsteuersatz_prozent / 100)

/-!
Helper layer for the amortization-loop proofs.  `stepRow` names the row
emitted by one loop iteration; `StepP` relates a row to the balance at the
start of its year and is exactly the shape of the loop body.
-/

/-- The row one iteration of the `berechne_tilgungsplan` loop appends when
the balance `r` at the start of the year is still positive. -/
def stepRow (z a : ℚ) (jahr : ℕ) (r zk tk : ℚ) : TilgungsRow :=
  { jahr := jahr
    zinsanteil := r * z
    tilgungsanteil := min (a - r * z) r
    restschuld := max 0 (r - min (a - r * z) r)
    zinsen_kumuliert := zk + r * z
    tilgung_kumuliert := tk + min (a - r * z) r }

/-- A row is related to the balance `s` at the start of its year by the
three formulas of the loop body. -/
def StepP (z a s : ℚ) (row : TilgungsRow) : Prop :=
  row.zinsanteil = s * z ∧
  row.tilgungsanteil = min (a - row.zinsanteil) s ∧
  row.restschuld = max 0 (s - row.tilgungsanteil)

lemma stepRow_stepP (z a : ℚ) (jahr : ℕ) (r zk tk : ℚ) :
    StepP z a r (stepRow z a jahr r zk tk) :=
  ⟨rfl, rfl, rfl⟩

lemma tilgungsplanAux_zero (z a : ℚ) (jahr : ℕ) (r zk tk : ℚ) :
    tilgungsplanAux z a 0 jahr r zk tk = [] := rfl

lemma tilgungsplanAux_succ_nonpos (z a : ℚ) (fuel jahr : ℕ) (r zk tk : ℚ)
    (h : r ≤ 0) : tilgungsplanAux z a (fuel + 1) jahr r zk tk = [] := by
  rw [tilgungsplanAux, if_pos h]

lemma tilgungsplanAux_succ_pos (z a : ℚ) (fuel jahr : ℕ) (r zk tk : ℚ)
    (h : ¬r ≤ 0) :
    tilgungsplanAux z a (fuel + 1) jahr r zk tk =
      stepRow z a jahr r zk tk ::
        tilgungsplanAux z a fuel (jahr + 1)
          (max 0 (r - min (a - r * z) r)) (zk + r * z)
          (tk + min (a - r * z) r) := by
  rw [tilgungsplanAux, if_neg h]; rfl

lemma tilgungsplanAux_length (z a : ℚ) :
    ∀ (fuel jahr : ℕ) (r zk tk : ℚ),
      (tilgungsplanAux z a fuel jahr r zk tk).length ≤ fuel := by
  intro fuel
  induction fuel with
  | zero => intro jahr r zk tk; simp [tilgungsplanAux_zero]
  | succ fuel ih =>
    intro jahr r zk tk
    by_cases h : r ≤ 0
    · rw [tilgungsplanAux_succ_nonpos z a fuel jahr r zk tk h]
      simp
    · rw [tilgungsplanAux_succ_pos z a fuel jahr r zk tk h]
      simpa using Nat.succ_le_succ (ih (jahr + 1) _ _ _)

lemma tilgungsplanAux_pos_of_ne_nil {z a : ℚ} {fuel jahr : ℕ} {r zk tk : ℚ}
    (h : tilgungsplanAux z a fuel jahr r zk tk ≠ []) : 0 < r := by
  cases fuel with
  | zero => exact absurd (tilgungsplanAux_zero z a jahr r zk tk) h
  | succ fuel =>
    by_cases hr : r ≤ 0
    · exact absurd (tilgungsplanAux_succ_nonpos z a fuel jahr r zk tk hr) h
    · exact lt_of_not_le hr

/-- The schedule produced by the loop satisfies `StepP` linking every row
to the balance at the start of its year: the first row to the initial
balance, every later row to its predecessor's remaining balance.  Purely
structural, no sign conditions needed. -/
lemma tilgungsplanAux_chain (z a : ℚ) :
    ∀ (fuel jahr : ℕ) (r zk tk : ℚ),
      (∀ hd ∈ (tilgungsplanAux z a fuel jahr r zk tk).head?, StepP z a r hd) ∧
      List.Chain' (fun p c => StepP z a p.restschuld c)
        (tilgungsplanAux z a fuel jahr r zk tk) := by
  intro fuel
  induction fuel with
  | zero =>
    intro jahr r zk tk
    rw [tilgungsplanAux_zero]
    exact ⟨by simp, List.chain'_nil⟩
  | succ fuel ih =>
    intro jahr r zk tk
    by_cases h : r ≤ 0
    · rw [tilgungsplanAux_succ_nonpos z a fuel jahr r zk tk h]
      exact ⟨by simp, List.chain'_nil⟩
    · rw [tilgungsplanAux_succ_pos z a fuel jahr r zk tk h]
      constructor
      · intro hd hhd
        simp only [List.head?_cons, Option.mem_some_iff] at hhd
        exact hhd ▸ stepRow_stepP z a jahr r zk tk
      · refine List.chain'_cons'.2 ⟨fun y hy => ?_, (ih (jahr + 1) _ _ _).2⟩
        exact (ih (jahr + 1) (max 0 (r - min (a - r * z) r)) (zk + r * z)
          (tk + min (a - r * z) r)).1 y hy

/-- Quantitative consequences of `StepP` when the start-of-year balance `s`
lies in `[0, B]`, the rate `z` is non-negative and the annuity `a` exceeds
the interest `B * z` on the largest possible balance. -/
lemma stepP_facts (z a B s : ℚ) (hz : 0 ≤ z) (hBa : B * z < a)
    (hs0 : 0 ≤ s) (hsB : s ≤ B) {row : TilgungsRow} (h : StepP z a s row) :
    row.zinsanteil = s * z ∧ row.tilgungsanteil = min (a - s * z) s ∧
    0 ≤ row.tilgungsanteil ∧ row.tilgungsanteil ≤ s ∧
    0 ≤ row.restschuld ∧ row.restschuld ≤ s := by
  obtain ⟨h1, h2, h3⟩ := h
  have hza : s * z ≤ B * z := mul_le_mul_of_nonneg_right hsB hz
  have hpos : 0 < a - s * z := by linarith
  have htilg : row.tilgungsanteil = min (a - s * z) s := by rw [h2, h1]
  have ht0 : 0 ≤ row.tilgungsanteil := by
    rw [htilg]; exact le_min hpos.le hs0
  have hts : row.tilgungsanteil ≤ s := by rw [htilg]; exact min_le_right _ _
  have hr0 : 0 ≤ row.restschuld := by rw [h3]; exact le_max_left _ _
  have hrs : row.restschuld ≤ s := by
    rw [h3]; exact max_le hs0 (by linarith)
  exact ⟨h1, htilg, ht0, hts, hr0, hrs⟩

/-- List-level consequences of the `StepP` chain under the same sign
conditions: all balances and principal portions are non-negative, balances
are non-increasing, and every row satisfies the interest/principal formulas
relative to its predecessor's balance. -/
lemma chainFacts (z a B : ℚ) (hz : 0 ≤ z) (hBa : B * z < a) :
    ∀ (L : List TilgungsRow) (s : ℚ), 0 ≤ s → s ≤ B →
      (∀ hd ∈ L.head?, StepP z a s hd) →
      List.Chain' (fun p c => StepP z a p.restschuld c) L →
      (∀ row ∈ L, 0 ≤ row.restschuld ∧ 0 ≤ row.tilgungsanteil) ∧
      List.Chain' (fun p c => c.restschuld ≤ p.restschuld) L ∧
      (∀ hd ∈ L.head?,
        hd.zinsanteil = s * z ∧
        hd.tilgungsanteil = min (a - hd.zinsanteil) s ∧
        0 ≤ hd.tilgungsanteil ∧ hd.tilgungsanteil ≤ s ∧
        0 ≤ hd.restschuld ∧ hd.restschuld ≤ s) ∧
      List.Chain' (fun p c =>
        c.zinsanteil = p.restschuld * z ∧
        c.tilgungsanteil = min (a - c.zinsanteil) p.restschuld ∧
        0 ≤ c.tilgungsanteil ∧ c.tilgungsanteil ≤ p.restschuld) L := by
  intro L
  induction L with
  | nil =>
    intro s _ _ _ _
    exact ⟨by simp, List.chain'_nil, by simp, List.chain'_nil⟩
  | cons row rest ih =>
    intro s hs0 hsB hhead hchain
    have hrow : StepP z a s row := hhead row (by simp)
    obtain ⟨hz1, ht1, ht0, hts, hr0, hrs⟩ :=
      stepP_facts z a B s hz hBa hs0 hsB hrow
    obtain ⟨hh2, hrest⟩ := List.chain'_cons'.1 hchain
    obtain ⟨ihMem, ihMono, ihHead, ihChain⟩ :=
      ih row.restschuld hr0 (le_trans hrs hsB) hh2 hrest
    refine ⟨?_, ?_, ?_, ?_⟩
    · intro q hq
      rcases List.mem_cons.1 hq with hq | hq
      · exact hq ▸ ⟨hr0, ht0⟩
      · exact ihMem q hq
    · exact List.chain'_cons'.2
        ⟨fun y hy => (ihHead y hy).2.2.2.2.2, ihMono⟩
    · intro hd hhd
      simp only [List.head?_cons, Option.mem_some_iff] at hhd
      subst hhd
      exact ⟨hz1, by rw [ht1, hz1], ht0, hts, hr0, hrs⟩
    · refine List.chain'_cons'.2 ⟨fun y hy => ?_, ihChain⟩
      obtain ⟨e1, e2, e3, e4, _, _⟩ := ihHead y hy
      exact ⟨e1, by rw [e2, e1], e3, e4⟩

/-- Every row other than the last one pays the full annuity
(`zinsanteil + tilgungsanteil = a`) and leaves a positive balance: if a
further row was emitted, the loop's `break` did not trigger, so the
post-payment balance was positive, which forces the `min` in the principal
payment to have chosen `a - zinsanteil`.  Purely structural. -/
lemma tilgungsplanAux_dropLast (z a : ℚ) :
    ∀ (fuel jahr : ℕ) (r zk tk : ℚ),
      ∀ row ∈ (tilgungsplanAux z a fuel jahr r zk tk).dropLast,
        0 < row.restschuld ∧ row.zinsanteil + row.tilgungsanteil = a := by
  intro fuel
  induction fuel with
  | zero => intro jahr r zk tk row hrow; rw [tilgungsplanAux_zero] at hrow; simp at hrow
  | succ fuel ih =>
    intro jahr r zk tk row hrow
    by_cases h : r ≤ 0
    · rw [tilgungsplanAux_succ_nonpos z a fuel jahr r zk tk h] at hrow
      simp at hrow
    · rw [tilgungsplanAux_succ_pos z a fuel jahr r zk tk h] at hrow
      rcases hR : tilgungsplanAux z a fuel (jahr + 1)
          (max 0 (r - min (a - r * z) r)) (zk + r * z)
          (tk + min (a - r * z) r) with _ | ⟨y, ys⟩
      · rw [hR] at hrow
        simp [List.dropLast] at hrow
      · rw [hR] at hrow
        have hrow' : row = stepRow z a jahr r zk tk ∨
            row ∈ (y :: ys).dropLast := by
          simpa [List.dropLast] using hrow
        rcases hrow' with hq | hq
        · have hne : tilgungsplanAux z a fuel (jahr + 1)
              (max 0 (r - min (a - r * z) r)) (zk + r * z)
              (tk + min (a - r * z) r) ≠ [] := by
            rw [hR]; exact List.cons_ne_nil y ys
          have hr2 : 0 < max 0 (r - min (a - r * z) r) :=
            tilgungsplanAux_pos_of_ne_nil hne
          have hsub : 0 < r - min (a - r * z) r :=
            (lt_max_iff.1 hr2).resolve_left (lt_irrefl 0)
          have hmin : min (a - r * z) r < r := by linarith
          have hleft : min (a - r * z) r = a - r * z := by
            rcases le_total (a - r * z) r with hle | hle
            · exact min_eq_left hle
            · exact absurd hmin (by rw [min_eq_right hle]; exact lt_irrefl r)
          subst hq
          refine ⟨hr2, ?_⟩
          show r * z + min (a - r * z) r = a
          rw [hleft]; ring
        · exact ih (jahr + 1) _ _ _ row (by rw [hR]; exact hq)

/-- C1 counterexample: with principal 100, rate 0 %, amortization 2 % and
term 1 year — all satisfying the claim's preconditions — the schedule's
only remaining balance is 98, so the balance does not reach 0 at or before
row index = term_years. -/
theorem tilgungsplan_erreicht_null_gegenbeispiel :
    (0 : ℚ) < 100 ∧ (0 : ℚ) ≤ 0 ∧ (0 : ℚ) < 2 ∧ 0 < 1 ∧
    (berechne_tilgungsplan 100 0 2 1).map TilgungsRow.restschuld = [98] := by
  refine ⟨by norm_num, le_refl 0, by norm_num, Nat.one_pos, ?_⟩
  norm_num [berechne_tilgungsplan, tilgungsplanAux]

/-- C1 (amended): for every loan with principal > 0, rate ≥ 0, initial
amortization rate > 0 and integer term > 0, the remaining-balance sequence
of `berechne_tilgungsplan` is non-increasing, every balance is ≥ 0, the
schedule has at most `term_years` rows, and a balance of 0 can occur only
in the final row; the balance need not reach 0 by `term_years`. -/
theorem tilgungsplan_restschuld_invarianten (P z t : ℚ) (n : ℕ)
    (hP : 0 < P) (hz : 0 ≤ z) (ht : 0 < t) (hn : 0 < n) :
    List.Chain' (fun p c => c.restschuld ≤ p.restschuld)
      (berechne_tilgungsplan P z t n) ∧
    (∀ row ∈ berechne_tilgungsplan P z t n, 0 ≤ row.restschuld) ∧
    (berechne_tilgungsplan P z t n).length ≤ n ∧
    (∀ row ∈ (berechne_tilgungsplan P z t n).dropLast, 0 < row.restschuld) := by
  have hBa : P * (z / 100) < P * (z + t) / 100 := by
    have h1 : P * (z + t) / 100 - P * (z / 100) = P * t / 100 := by ring
    have h2 : 0 < P * t / 100 := by positivity
    linarith
  have hz' : 0 ≤ z / 100 := by positivity
  obtain ⟨hhead, hchain⟩ :=
    tilgungsplanAux_chain (z / 100) (P * (z + t) / 100) n 1 P 0 0
  obtain ⟨hmem, hmono, -, -⟩ :=
    chainFacts (z / 100) (P * (z + t) / 100) P hz' hBa
      (tilgungsplanAux (z / 100) (P * (z + t) / 100) n 1 P 0 0) P
      hP.le le_rfl hhead hchain
  exact ⟨hmono, fun row hrow => (hmem row hrow).1,
    tilgungsplanAux_length _ _ n 1 P 0 0,
    fun row hrow => (tilgungsplanAux_dropLast _ _ n 1 P 0 0 row hrow).1⟩

/-- Witness for C1 at principal 100, rate 0 %, amortization 50 %, term 3. -/
theorem tilgungsplan_restschuld_invarianten_witness :
    (0 : ℚ) < 100 ∧ (0 : ℚ) ≤ 0 ∧ (0 : ℚ) < 50 ∧ 0 < 3 ∧
    (List.Chain' (fun p c => c.restschuld ≤ p.restschuld)
        (berechne_tilgungsplan 100 0 50 3) ∧
      (∀ row ∈ berechne_tilgungsplan 100 0 50 3, 0 ≤ row.restschuld) ∧
      (berechne_tilgungsplan 100 0 50 3).length ≤ 3 ∧
      (∀ row ∈ (berechne_tilgungsplan 100 0 50 3).dropLast,
        0 < row.restschuld)) :=
  ⟨by norm_num, le_refl 0, by norm_num, by norm_num,
    tilgungsplan_restschuld_invarianten 100 0 50 3 (by norm_num) le_rfl
      (by norm_num) (by norm_num)⟩

/-- C2: for every loan with principal > 0, rate ≥ 0, amortization rate > 0
and term > 0, every schedule row satisfies: interest portion =
balance-at-start-of-year × rate, principal portion =
min(annuity − interest portion, balance-at-start-of-year), and the
principal portion is never negative and never exceeds the balance at the
start of its year (first row measured against the principal, later rows
against the predecessor's remaining balance). -/
theorem tilgungsplan_zeilen_formeln (P z t : ℚ) (n : ℕ)
    (hP : 0 < P) (hz : 0 ≤ z) (ht : 0 < t) (hn : 0 < n) :
    (∀ hd ∈ (berechne_tilgungsplan P z t n).head?,
      hd.zinsanteil = P * (z / 100) ∧
      hd.tilgungsanteil = min (P * (z + t) / 100 - hd.zinsanteil) P ∧
      0 ≤ hd.tilgungsanteil ∧ hd.tilgungsanteil ≤ P) ∧
    List.Chain' (fun p c =>
      c.zinsanteil = p.restschuld * (z / 100) ∧
      c.tilgungsanteil = min (P * (z + t) / 100 - c.zinsanteil) p.restschuld ∧
      0 ≤ c.tilgungsanteil ∧ c.tilgungsanteil ≤ p.restschuld)
      (berechne_tilgungsplan P z t n) := by
  have hBa : P * (z / 100) < P * (z + t) / 100 := by
    have h1 : P * (z + t) / 100 - P * (z / 100) = P * t / 100 := by ring
    have h2 : 0 < P * t / 100 := by positivity
    linarith
  have hz' : 0 ≤ z / 100 := by positivity
  obtain ⟨hhead, hchain⟩ :=
    tilgungsplanAux_chain (z / 100) (P * (z + t) / 100) n 1 P 0 0
  obtain ⟨-, -, hHd, hCh⟩ :=
    chainFacts (z / 100) (P * (z + t) / 100) P hz' hBa
      (tilgungsplanAux (z / 100) (P * (z + t) / 100) n 1 P 0 0) P
      hP.le le_rfl hhead hchain
  exact ⟨fun hd hhd => ⟨(hHd hd hhd).1, (hHd hd hhd).2.1, (hHd hd hhd).2.2.1,
    (hHd hd hhd).2.2.2.1⟩, hCh⟩

/-- Witness for C2 at principal 100, rate 50 %, amortization 50 %, term 2. -/
theorem tilgungsplan_zeilen_formeln_witness :
    (0 : ℚ) < 100 ∧ (0 : ℚ) ≤ 50 ∧ (0 : ℚ) < 50 ∧ 0 < 2 ∧
    ((∀ hd ∈ (berechne_tilgungsplan 100 50 50 2).head?,
        hd.zinsanteil = 100 * (50 / 100) ∧
        hd.tilgungsanteil = min (100 * (50 + 50) / 100 - hd.zinsanteil) 100 ∧
        0 ≤ hd.tilgungsanteil ∧ hd.tilgungsanteil ≤ 100) ∧
      List.Chain' (fun p c =>
        c.zinsanteil = p.restschuld * (50 / 100) ∧
        c.tilgungsanteil =
          min (100 * (50 + 50) / 100 - c.zinsanteil) p.restschuld ∧
        0 ≤ c.tilgungsanteil ∧ c.tilgungsanteil ≤ p.restschuld)
        (berechne_tilgungsplan 100 50 50 2)) :=
  ⟨by norm_num, by norm_num, by norm_num, by norm_num,
    tilgungsplan_zeilen_formeln 100 50 50 2 (by norm_num) (by norm_num)
      (by norm_num) (by norm_num)⟩

/-- C10: every schedule row except possibly the last pays exactly the
constant annuity: interest portion + principal portion =
principal × (rate% + amortization%) / 100; only the final row may pay
less, when the principal portion is clamped to the remaining balance. -/
theorem tilgungsplan_volle_annuitaet (P z t : ℚ) (n : ℕ)
    (hP : 0 < P) (hz : 0 ≤ z) (ht : 0 < t) (hn : 0 < n) :
    ∀ row ∈ (berechne_tilgungsplan P z t n).dropLast,
      row.zinsanteil + row.tilgungsanteil = P * (z + t) / 100 :=
  fun row hrow => (tilgungsplanAux_dropLast _ _ n 1 P 0 0 row hrow).2

/-- Witness for C10 at principal 100, rate 0 %, amortization 50 %, term 3. -/
theorem tilgungsplan_volle_annuitaet_witness :
    (0 : ℚ) < 100 ∧ (0 : ℚ) ≤ 0 ∧ (0 : ℚ) < 50 ∧ 0 < 3 ∧
    (∀ row ∈ (berechne_tilgungsplan 100 0 50 3).dropLast,
      row.zinsanteil + row.tilgungsanteil = 100 * (0 + 50) / 100) :=
  ⟨by norm_num, le_refl 0, by norm_num, by norm_num,
    tilgungsplan_volle_annuitaet 100 0 50 3 (by norm_num) le_rfl
      (by norm_num) (by norm_num)⟩

/-- C3 (failing input): loan 100000, rate 0 %, amortization 10 %, term 5,
equity 20000, purchase price 0 (≤ 0 branch), appreciation 0 %.  The first
schedule row has Restschuld 90000, Tilgung kumuliert 10000 and
Tilgungsanteil 10000, so the source's reconstruction
`Restschuld[0] + Tilgung_kumuliert[0] - Tilgungsanteil[0]` cancels to the
year-one balance 90000 instead of the loan principal 100000: the first
projected property value is 90000 + 20000 = 110000, not the
principal + equity = 120000 that the variable name `darlehensbetrag` and
the specification intend. -/
theorem vermoegensaufbau_startwert_bug :
    (berechne_vermoegensaufbau 20000 (berechne_tilgungsplan 100000 0 10 5)
        0 0 0).head?.map VermoegensRow.immobilienwert = some 110000 ∧
    (110000 : ℚ) < (100000 + 20000) * (1 + 0 / 100) := by
  constructor
  · norm_num [berechne_tilgungsplan, tilgungsplanAux, berechne_vermoegensaufbau,
      vermoegensAux]
  · norm_num

/-- C4: the annuity summary's total cost is the annual payment × term
floored at the principal (hence ≥ the principal), its total interest is
the total cost − principal floored at 0 (hence ≥ 0), and the annual
payment is principal × (rate% + amortization%) / 100. -/
theorem annuitaet_gesamtkosten_floors (P z t : ℚ) (n : ℕ)
    (hP : 0 < P) (hz : 0 ≤ z) (ht : 0 < t) (hn : 0 < n) :
    (berechne_annuitaet P z t n).jaehrliche_rate = P * (z + t) / 100 ∧
    (berechne_annuitaet P z t n).gesamtkosten =
      max ((berechne_annuitaet P z t n).jaehrliche_rate * (n : ℚ)) P ∧
    P ≤ (berechne_annuitaet P z t n).gesamtkosten ∧
    (berechne_annuitaet P z t n).zinsen_gesamt =
      max ((berechne_annuitaet P z t n).gesamtkosten - P) 0 ∧
    0 ≤ (berechne_annuitaet P z t n).zinsen_gesamt := by
  refine ⟨rfl, rfl, le_max_right _ _, ?_, le_max_right _ _⟩
  show max (P * (z + t) / 100 * (n : ℚ) - P) 0 =
    max (max (P * (z + t) / 100 * (n : ℚ)) P - P) 0
  rw [← max_sub_sub_right, sub_self, max_assoc, max_self]

/-- Witness for C4 at principal 240000, rate 3.5 %, amortization 2 %,
term 30. -/
theorem annuitaet_gesamtkosten_floors_witness :
    (0 : ℚ) < 240000 ∧ (0 : ℚ) ≤ 7 / 2 ∧ (0 : ℚ) < 2 ∧ 0 < 30 ∧
    ((berechne_annuitaet 240000 (7 / 2) 2 30).jaehrliche_rate =
        240000 * (7 / 2 + 2) / 100 ∧
      (berechne_annuitaet 240000 (7 / 2) 2 30).gesamtkosten =
        max ((berechne_annuitaet 240000 (7 / 2) 2 30).jaehrliche_rate *
          ((30 : ℕ) : ℚ)) 240000 ∧
      (240000 : ℚ) ≤ (berechne_annuitaet 240000 (7 / 2) 2 30).gesamtkosten ∧
      (berechne_annuitaet 240000 (7 / 2) 2 30).zinsen_gesamt =
        max ((berechne_annuitaet 240000 (7 / 2) 2 30).gesamtkosten - 240000) 0 ∧
      0 ≤ (berechne_annuitaet 240000 (7 / 2) 2 30).zinsen_gesamt) :=
  ⟨by norm_num, by norm_num, by norm_num, by norm_num,
    annuitaet_gesamtkosten_floors 240000 (7 / 2) 2 30 (by norm_num)
      (by norm_num) (by norm_num) (by norm_num)⟩

/-- C5: for every input record, the tax computation returns deductible
expenses = depreciation + interest + non-recoverable + other costs,
taxable result = rental income − deductible expenses, tax effect =
−(taxable result × marginal rate / 100), monthly tax effect =
tax effect / 12, with depreciation = price × building_share/100 ×
class_rate/100; when the marginal rate is positive, a negative taxable
result yields a positive tax benefit and a positive taxable result a
negative one. -/
theorem steuerliche_absetzbarkeit_formeln (d : Steuerdaten) :
    (berechne_steuerliche_absetzbarkeit d).afa_betrag =
      d.kaufpreis * d.gebaeude_anteil_prozent / 100 * d.afa_typ.value / 100 ∧
    (berechne_steuerliche_absetzbarkeit d).werbungskosten =
      (berechne_steuerliche_absetzbarkeit d).afa_betrag +
        d.zinsen_jaehrlich + d.nicht_umlegbare_kosten_jaehrlich +
        d.sonstige_werbungskosten ∧
    (berechne_steuerliche_absetzbarkeit d).einkuenfte_aus_vv =
      d.mieteinnahmen_jaehrlich -
        (berechne_steuerliche_absetzbarkeit d).werbungskosten ∧
    (berechne_steuerliche_absetzbarkeit d).steuervorteil =
      -((berechne_steuerliche_absetzbarkeit d).einkuenfte_aus_vv *
        d.grenzsteuersatz_prozent / 100) ∧
    (berechne_steuerliche_absetzbarkeit d).steuervorteil_monatlich =
      (berechne_steuerliche_absetzbarkeit d).steuervorteil / 12 ∧
    ((berechne_steuerliche_absetzbarkeit d).einkuenfte_aus_vv < 0 →
      0 < d.grenzsteuersatz_prozent →
      0 < (berechne_steuerliche_absetzbarkeit d).steuervorteil) ∧
    (0 < (berechne_steuerliche_absetzbarkeit d).einkuenfte_aus_vv →
      0 < d.grenzsteuersatz_prozent →
      (berechne_steuerliche_absetzbarkeit d).steuervorteil < 0) := by
  refine ⟨rfl, rfl, rfl, rfl, rfl, fun he hr => ?_, fun he hr => ?_⟩
  · have h1 : (berechne_steuerliche_absetzbarkeit d).einkuenfte_aus_vv *
        d.grenzsteuersatz_prozent / 100 < 0 :=
      div_neg_of_neg_of_pos (mul_neg_of_neg_of_pos he hr) (by norm_num)
    show 0 < -((berechne_steuerliche_absetzbarkeit d).einkuenfte_aus_vv *
      d.grenzsteuersatz_prozent / 100)
    linarith
  · have h1 : 0 < (berechne_steuerliche_absetzbarkeit d).einkuenfte_aus_vv *
        d.grenzsteuersatz_prozent / 100 :=
      div_pos (mul_pos he hr) (by norm_num)
    show -((berechne_steuerliche_absetzbarkeit d).einkuenfte_aus_vv *
      d.grenzsteuersatz_prozent / 100) < 0
    linarith

/-- Witness for C5: price 100000, building share 80 %, class rate 2 %,
interest 3000, rent 6000, non-recoverable 1200, marginal rate 42 %,
other 0: taxable result 200 > 0, so the tax effect is the negative
−84. -/
theorem steuerliche_absetzbarkeit_formeln_witness :
    (berechne_steuerliche_absetzbarkeit
      ⟨100000, 80, .ALTBAU_AB_1925, 3000, 6000, 1200, 42, 0⟩).steuervorteil
      < 0 := by
  have h := steuerliche_absetzbarkeit_formeln
    ⟨100000, 80, .ALTBAU_AB_1925, 3000, 6000, 1200, 42, 0⟩
  refine h.2.2.2.2.2.2 ?_ (by norm_num)
  norm_num [berechne_steuerliche_absetzbarkeit, berechne_afa, AfATyp.value]

/-- C6: each return ratio of `berechne_renditen` is exactly 0 when its
denominator (purchase price for the gross yield; price + closing costs for
the net yield, the object yield and the cash-flow yield; equity for the
equity yield) is ≤ 0, for arbitrary numerator values; the embedding is a
total function, reflecting that the guarded Python code never raises a
division error. -/
theorem renditen_null_bei_nichtpositivem_nenner
    (kaufpreis nebenkosten eigenkapital brutto netto cashflow : ℚ) :
    (kaufpreis ≤ 0 →
      (berechne_renditen kaufpreis nebenkosten eigenkapital brutto netto
        cashflow).brutto_mietrendite = 0) ∧
    (kaufpreis + nebenkosten ≤ 0 →
      (berechne_renditen kaufpreis nebenkosten eigenkapital brutto netto
        cashflow).netto_mietrendite = 0 ∧
      (berechne_renditen kaufpreis nebenkosten eigenkapital brutto netto
        cashflow).objektrendite = 0 ∧
      (berechne_renditen kaufpreis nebenkosten eigenkapital brutto netto
        cashflow).cashflow_rendite = 0) ∧
    (eigenkapital ≤ 0 →
      (berechne_renditen kaufpreis nebenkosten eigenkapital brutto netto
        cashflow).eigenkapitalrendite = 0) := by
  refine ⟨fun h => ?_, fun h => ⟨?_, ?_, ?_⟩, fun h => ?_⟩ <;>
    simp [berechne_renditen, not_lt.2 h]

/-- Witness for C6 at price −1, closing costs 1, equity −5 and arbitrary
numerators 7, 8, 9: all the non-positive-denominator guards fire. -/
theorem renditen_null_bei_nichtpositivem_nenner_witness :
    (berechne_renditen (-1) 1 (-5) 7 8 9).brutto_mietrendite = 0 ∧
    (berechne_renditen (-1) 1 (-5) 7 8 9).netto_mietrendite = 0 ∧
    (berechne_renditen (-1) 1 (-5) 7 8 9).objektrendite = 0 ∧
    (berechne_renditen (-1) 1 (-5) 7 8 9).cashflow_rendite = 0 ∧
    (berechne_renditen (-1) 1 (-5) 7 8 9).eigenkapitalrendite = 0 := by
  obtain ⟨h1, h2, h3⟩ :=
    renditen_null_bei_nichtpositivem_nenner (-1) 1 (-5) 7 8 9
  obtain ⟨h4, h5, h6⟩ := h2 (by norm_num)
  exact ⟨h1 (by norm_num), h4, h5, h6, h3 (by norm_num)⟩

/-- C7: the worked scenario — principal 240000, rate 3.5 %, amortization
2 %, term 30 — yields annual payment 13200 and a first schedule row with
interest 8400, principal portion 4800 and remaining balance 235200. -/
theorem szenario_240000 :
    (berechne_annuitaet 240000 (7 / 2) 2 30).jaehrliche_rate = 13200 ∧
    (berechne_tilgungsplan 240000 (7 / 2) 2 30).head?.map
        (fun r => (r.zinsanteil, r.tilgungsanteil, r.restschuld)) =
      some (8400, 4800, 235200) := by
  constructor
  · norm_num [berechne_annuitaet]
  · norm_num [berechne_tilgungsplan, tilgungsplanAux]

/-- C8: an empty amortization schedule yields an empty wealth projection
(for any of the other arguments), and the schedule itself is empty both
for term 0 and for principal 0, so neither degenerate call can fail. -/
theorem leere_plaene (ek cf w kp P z t : ℚ) (n : ℕ) :
    berechne_vermoegensaufbau ek [] cf w kp = [] ∧
    berechne_tilgungsplan P z t 0 = [] ∧
    berechne_tilgungsplan 0 z t n = [] := by
  refine ⟨rfl, rfl, ?_⟩
  cases n with
  | zero => rfl
  | succ m =>
    exact tilgungsplanAux_succ_nonpos _ _ m 1 0 0 0 le_rfl

/-- C9 counterexample: at the non-positive purchase price −100000 the
closing-cost calculator does not reject its input: it returns the plain
arithmetic breakdown (here for Bayern with broker commission 3.57 % and
notary rate 2 %). -/
theorem nebenkosten_keine_validierung_gegenbeispiel :
    (-100000 : ℚ) ≤ 0 ∧
    berechne_nebenkosten_nach_bundesland (-100000) .BAYERN true (357 / 100) 2 =
      ⟨-3500, 7 / 2, -2000, -3570, -9070, 907 / 100⟩ := by
  constructor
  · norm_num
  · norm_num [berechne_nebenkosten_nach_bundesland, Bundesland.steuersatz]

/-- C9 (amended): the closing-cost calculator performs no input
validation and never rejects: for every purchase price (positive or not)
it is a pure total function returning transfer tax = price × regional
rate / 100, notary/registration = price × notary% / 100, broker =
price × broker% / 100 only when the broker flag is set (else 0), and
their sum as the total; the same holds for the fixed-rate variant
`berechne_nebenkosten`. -/
theorem nebenkosten_reine_formeln (kp mp np g nt mk : ℚ)
    (bl : Bundesland) (flag : Bool) :
    (berechne_nebenkosten_nach_bundesland kp bl flag mp np).grunderwerbsteuer =
      kp * bl.steuersatz / 100 ∧
    (berechne_nebenkosten_nach_bundesland kp bl flag mp np).notar_und_grundbuch =
      kp * np / 100 ∧
    (berechne_nebenkosten_nach_bundesland kp bl flag mp np).makler =
      kp * (if flag then mp else 0) / 100 ∧
    (berechne_nebenkosten_nach_bundesland kp bl flag mp np).gesamt =
      (berechne_nebenkosten_nach_bundesland kp bl flag mp np).grunderwerbsteuer +
      (berechne_nebenkosten_nach_bundesland kp bl flag mp np).notar_und_grundbuch +
      (berechne_nebenkosten_nach_bundesland kp bl flag mp np).makler ∧
    (berechne_nebenkosten kp g nt mk).grunderwerbsteuer = kp * g / 100 ∧
    (berechne_nebenkosten kp g nt mk).notar_und_grundbuch = kp * nt / 100 ∧
    (berechne_nebenkosten kp g nt mk).makler = kp * mk / 100 ∧
    (berechne_nebenkosten kp g nt mk).gesamt =
      kp * (g + nt + mk) / 100 :=
  ⟨rfl, rfl, rfl, rfl, rfl, rfl, rfl, rfl⟩

end ImmoInvest
